import Mathlib

/-!
Verification of the buttonbox code-generation component and the name-resolution
utility of this repository.

The embedding below translates, from the source:
  - `psychopy/experiment/components/buttonbox/__init__.py`:
    `ButtonboxComponent.__init__` (parameter registration and normalisation),
    `writeInitCode`, `writeRoutineStartCode`, `writeFrameCode` (with its inner
    `_buttonPressCode` helper) and `writeRoutineEndCode`;
  - `psychopy/core.py`: `getFromNames`.

The code buffer (an external collaborator with `writeIndented`,
`writeIndentedLines` and `setIndentLevel(delta, relative=True)`) is modelled as
an indentation level plus the ordered list of write events, each recorded with
the indentation level at which it was written.

Python string operations used by the source (`split`, `strip`, `lower`,
`startswith`, `endswith`, membership test) are re-implemented structurally over
`String.data` so that all definitions evaluate by kernel reduction.
-/

/-- Single-quote character (ASCII 39), used when assembling generated code. -/
def squote : Char := Char.ofNat 39

/-- Double-quote character (ASCII 34). -/
def dquote : Char := Char.ofNat 34

/-- Helper for `splitOnChar`: accumulates the current field in reverse. -/
def splitOnCharAux (sep : Char) : List Char → List Char → List String
  | [], acc => [String.mk acc.reverse]
  | c :: rest, acc =>
    if c = sep then String.mk acc.reverse :: splitOnCharAux sep rest []
    else splitOnCharAux sep rest (c :: acc)

/-- Python `str.split(sep)` for a one-character separator: keeps empty fields,
including a trailing empty field when the string ends with the separator. -/
def splitOnChar (sep : Char) (s : String) : List String :=
  splitOnCharAux sep s.data []

/-- Python `text.split("\n")`, the split performed by `writeIndentedLines`. -/
def splitLines (s : String) : List String := splitOnChar '\n' s

/-- Python truth test `c in s` for a single character. -/
def pyContainsChar (s : String) (c : Char) : Bool :=
  s.data.any (fun d => decide (d = c))

/-- Python `s.startswith(c)` for a one-character prefix. -/
def pyStartsWithChar (s : String) (c : Char) : Bool :=
  match s.data with
  | [] => false
  | d :: _ => decide (d = c)

/-- Python `s.endswith(c)` for a one-character suffix. -/
def pyEndsWithChar (s : String) (c : Char) : Bool :=
  decide (s.data.getLast? = some c)

/-- Python `s[1:-1]`: drop the first and last character. -/
def stripFirstLast (s : String) : String :=
  String.mk (s.data.drop 1).dropLast

/-- ASCII whitespace recognised by Python `str.strip()`. -/
def isPyWhitespace (c : Char) : Bool :=
  decide (c = ' ') || decide (c = '\t') || decide (c = '\n') ||
  decide (c = '\r') || decide (c = '\x0b') || decide (c = '\x0c')

/-- Python `s.strip()`: remove leading and trailing whitespace. -/
def pyStrip (s : String) : String :=
  String.mk (((s.data.dropWhile isPyWhitespace).reverse.dropWhile isPyWhitespace).reverse)

/-- Lower-case an ASCII character, as Python `str.lower()` does on the
parameter values occurring here (all ASCII). -/
def pyLowerChar (c : Char) : Char :=
  if 65 ≤ c.toNat ∧ c.toNat ≤ 90 then Char.ofNat (c.toNat + 32) else c

/-- Python `s.lower()` restricted to ASCII input. -/
def pyLower (s : String) : String :=
  String.mk (s.data.map pyLowerChar)

/-- The external code buffer: current indentation level plus the ordered list
of write events; each event records the indentation level at which the text
was written. `setIndentLevel(d, relative=True)` adds `d` to the level. -/
structure CodeBuffer where
  indentLevel : Int
  entries : List (Int × String)
deriving DecidableEq, Repr

/-- A fresh buffer context, as used when expanding a phase from scratch. -/
def emptyBuffer : CodeBuffer := { indentLevel := 0, entries := [] }

/-- `buff.writeIndented(text)`: one write event at the current level. -/
def writeIndented (b : CodeBuffer) (s : String) : CodeBuffer :=
  { b with entries := b.entries ++ [(b.indentLevel, s)] }

/-- Write a list of lines, each as one event at the current level. -/
def writeLines (b : CodeBuffer) (ls : List String) : CodeBuffer :=
  { b with entries := b.entries ++ ls.map (fun l => (b.indentLevel, l)) }

/-- `buff.writeIndentedLines(text)`: split the text at newlines and write each
resulting line at the current level. -/
def writeIndentedLines (b : CodeBuffer) (s : String) : CodeBuffer :=
  writeLines b (splitLines s)

/-- `buff.setIndentLevel(d, relative=True)`. -/
def setIndentLevel (d : Int) (b : CodeBuffer) : CodeBuffer :=
  { b with indentLevel := b.indentLevel + d }

/-- The configuration a `ButtonboxComponent` generation pass reads.

Fields `name`, `forceEndRoutineOnPress`, `timeRelativeTo`, `clickable` come
from parameters registered by `__init__` (source lines 27-87). Fields
`saveMouseState`, `newClicksOnly` and `storeCorrect` are parameter values that
`writeFrameCode` and `writeRoutineEndCode` read from `self.params` although
`__init__` never registers them (see the lookup-key development below); the
generation logic is embedded as a function of their values. `hasStartTest` and
`hasStopTest` record whether the base-class start and stop tests emit a guard
(that is, whether `writeStartTestCode` and `writeStopTestCode` return a
nonzero indent count). -/
structure ButtonboxConfig where
  name : String
  forceEndRoutineOnPress : String
  saveMouseState : String
  timeRelativeTo : String
  newClicksOnly : Bool
  clickable : List String
  storeCorrect : Bool
  hasStartTest : Bool
  hasStopTest : Bool
deriving DecidableEq, Repr

/-- The clock-name string computed at the top of `writeFrameCode` (source
lines 118-122): `globalClock` when the lowered `timeRelativeTo` is
`"experiment"`, otherwise `<name>.buttonboxClock` for the other two allowed
values `"routine"` and `"buttonbox onset"`. For a value outside the allowed
set the source leaves `self.clockStr` unset (stale attribute); that case is
unreachable for validated configurations, and the embedding reuses the
`<name>.buttonboxClock` form there. -/
def clockStr (cfg : ButtonboxConfig) : String :=
  let timeRelative := pyLower cfg.timeRelativeTo
  if timeRelative = "experiment" then "globalClock"
  else cfg.name ++ ".buttonboxClock"

/-- The per-frame data-append block `mouseCode` (source lines 191-199). -/
def mouseCode (cfg : ButtonboxConfig) : String :=
  "x, y = " ++ cfg.name ++ ".getPos()\n" ++
  cfg.name ++ ".x.append(x)\n" ++
  cfg.name ++ ".y.append(y)\n" ++
  "buttons = " ++ cfg.name ++ ".getPressed()\n" ++
  cfg.name ++ ".leftButton.append(buttons[0])\n" ++
  cfg.name ++ ".midButton.append(buttons[1])\n" ++
  cfg.name ++ ".rightButton.append(buttons[2])\n" ++
  cfg.name ++ ".time.append(" ++ clockStr cfg ++ ".getTime())\n"

/-- The inner `_buttonPressCode(buff, dedent)` helper of `writeFrameCode`
(source lines 161-174): emits the button-state-changed guard, enters it,
emits the new-click guard, enters it, and returns the buffer together with
the dedent counter increased by two. -/
def buttonPressCode (cfg : ButtonboxConfig) (b : CodeBuffer) (dedent : Nat) :
    CodeBuffer × Nat :=
  let b := writeIndentedLines b
    ("buttons = " ++ cfg.name ++ ".getKeys()\n" ++
     "if buttons != prevButtonState:  # button state changed?")
  let b := setIndentLevel 1 b
  let b := writeIndented b "prevButtonState = buttons\n"
  let b := writeIndentedLines b
    ("if buttons > 0:  # state changed to a new click\n" ++
     "lastResp = buttons[-1]")
  let b := setIndentLevel 1 b
  (b, dedent + 2)

/-- Modelled from the spec: `BaseComponent.writeStartTestCode` is not under
src/. Per the source comment at its call site ("writes an if statement to
determine whether to draw etc") and the indentation contract of the spec, it
emits one start-condition guard line and raises the indentation level by one,
returning the number of levels opened; a component without a start test emits
nothing and returns zero. -/
def writeStartTestCode (cfg : ButtonboxConfig) (b : CodeBuffer) :
    Nat × CodeBuffer :=
  if cfg.hasStartTest then
    (1, setIndentLevel 1 (writeIndented b
      ("if tThisFlip >= 0.0 and " ++ cfg.name ++ ".status == NOT_STARTED:\n")))
  else (0, b)

/-- Modelled from the spec: `BaseComponent.writeStopTestCode` is not under
src/. Per the source comment ("test for stop (only if there was some setting
for duration or stop)"), it emits one stop-condition guard line and raises the
indentation level by one when a stop setting exists, returning the number of
levels opened, and emits nothing returning zero otherwise. -/
def writeStopTestCode (cfg : ButtonboxConfig) (b : CodeBuffer) :
    Nat × CodeBuffer :=
  if cfg.hasStopTest then
    (1, setIndentLevel 1 (writeIndented b
      ("if " ++ cfg.name ++ ".status == STARTED and t >= tStop:\n")))
  else (0, b)

/-- `ButtonboxComponent.writeInitCode` emission (source lines 90-95). The four
adjacent string literals of the source carry no separating newlines, so the
whole block is a single generated line; both `%(name)s` occurrences are
substituted by the component name. -/
def writeInitCode (cfg : ButtonboxConfig) (b : CodeBuffer) : CodeBuffer :=
  writeIndentedLines b
    ("#initialize buttonbox" ++
     "from psychopy_pixx.devices import Responsepixx" ++
     cfg.name ++ " = ResponsePixx(pixxdevice, buttons = buttons, events = [\x27down\x27], lights = lights" ++
     cfg.name ++ ".buttonboxClock = core.Clock()\n")

/-- `ButtonboxComponent.writeRoutineStartCode` (source lines 97-110): emits the
comment plus device-start call plus accumulator initialiser (the source
literal `"(name)sResp = []"` lacks the percent sign, so it is emitted
verbatim), appending the clock reset when the lowered `timeRelativeTo` equals
`"routine"`. -/
def writeRoutineStartCode (cfg : ButtonboxConfig) (b : CodeBuffer) : CodeBuffer :=
  let code :=
    "# starting the buttonbox and setup a python list for storing the button presses of " ++
    cfg.name ++ "\n" ++
    cfg.name ++ ".start()\n" ++
    "(name)sResp = []\n"
  let code :=
    if pyLower cfg.timeRelativeTo = "routine" then
      code ++ cfg.name ++ ".buttonboxClock.reset()\n"
    else code
  writeIndentedLines b code

/-- `ButtonboxComponent.writeFrameCode` (source lines 112-253), translated
branch for branch. Notable source facts mirrored here:
  - the dedent matching the STARTED guard (source line 253) sits inside the
    `elif` taken when `saveMouseState != "never"`, so the branch taken when
    both `saveMouseState` and `forceEndRoutineOnPress` are `"never"` never
    emits it;
  - in the `forceEndRoutineOnPress == "correct click"` arm (source lines
    245-249) the guard string is assigned to a local variable but never
    written to the buffer. -/
def writeFrameCode (cfg : ButtonboxConfig) (b : CodeBuffer) : CodeBuffer :=
  let forceEnd := cfg.forceEndRoutineOnPress
  let save := cfg.saveMouseState
  let b := writeIndented b ("# *" ++ cfg.name ++ "* updates\n")
  let (ind1, b) := writeStartTestCode cfg b
  let b :=
    if ind1 ≠ 0 then
      let code :=
        (if pyLower cfg.timeRelativeTo = "buttonbox onset" then
           cfg.name ++ ".buttonboxClock.reset()\n"
         else "") ++
        (if cfg.newClicksOnly then
           "prevButtonState = " ++ cfg.name ++
           ".getKeys()  # if button is down already this ISN\x27T a new click\n"
         else
           "prevButtonState = []  # if now button is down we will treat as \x27new\x27 click\n")
      writeIndentedLines b code
    else b
  let b := setIndentLevel (-(ind1 : Int)) b
  let (ind2, b) := writeStopTestCode cfg b
  let b := setIndentLevel (-(ind2 : Int)) b
  let b := writeIndented b
    ("if " ++ cfg.name ++ ".status == STARTED:  # only update if started and not finished!\n")
  let b := setIndentLevel 1 b
  let dedentAtEnd : Nat := 1
  if (save = "never" ∨ save = "final") ∧ forceEnd ≠ "never" then
    let (b, d) := buttonPressCode cfg b dedentAtEnd
    if forceEnd = "valid click" then
      let b := writeIndentedLines b
        "if gotValidClick:  \n    continueRoutine = False  # end routine on response\n"
      setIndentLevel (-(d : Int)) b
    else
      let b := writeIndented b "continueRoutine = False  # end routine on response"
      setIndentLevel (-(d : Int)) b
  else if save ≠ "never" then
    let mc := mouseCode cfg
    let b := if save = "every frame" then writeIndentedLines b mc else b
    let (b, d) :=
      if forceEnd = "never" ∧ (save = "on click" ∨ save = "on valid click") then
        let (b, d) := buttonPressCode cfg b dedentAtEnd
        let b :=
          if save = "on click" then writeIndentedLines b mc
          else if ¬cfg.clickable.isEmpty ∧ save = "on valid click" then
            let b := writeIndentedLines b "if gotValidClick:\n"
            let b := setIndentLevel 1 b
            let b := writeIndentedLines b mc
            setIndentLevel (-1) b
          else b
        (b, d)
      else if forceEnd ≠ "never" then
        let (b, d) := buttonPressCode cfg b dedentAtEnd
        let b :=
          if save = "on click" then writeIndentedLines b mc
          else if ¬cfg.clickable.isEmpty ∧ save = "on valid click" then
            let b := writeIndentedLines b "if gotValidClick:\n"
            let b := setIndentLevel 1 b
            let b := writeIndentedLines b mc
            setIndentLevel (-1) b
          else b
        let b :=
          if ¬cfg.clickable.isEmpty ∧ forceEnd = "valid click" then
            writeIndentedLines b
              "if gotValidClick:\n    continueRoutine = False  # end routine on response\n"
          else b
        let b :=
          if forceEnd = "any click" then
            writeIndentedLines b
              "\ncontinueRoutine = False  # end routine on response\n"
          else b
        -- source lines 245-249: for forceEnd == "correct click" a guard string
        -- is assigned to the local variable `code` but never written to the
        -- buffer, so that arm emits nothing
        (b, d)
      else (b, dedentAtEnd)
    setIndentLevel (-(d : Int)) b
  else b

/-- The enclosing loop or handler object consulted by `writeRoutineEndCode`:
its `.type` discriminator and the value of its `params["name"]`. -/
structure LoopHandler where
  type : String
  name : String
deriving DecidableEq, Repr

/-- The experiment-side collaborators `writeRoutineEndCode` reads:
`exp.flow._loopList`, `exp._expHandler`, the attribute `exp._expHandler.name`
(compared against the loop name at source line 349), and the
`_clickableParamsList` attribute filled by the clickable-objects helper. -/
structure ExpCtx where
  loopList : List LoopHandler
  expHandler : LoopHandler
  expHandlerName : String
  clickableParamsList : List String
deriving DecidableEq, Repr

/-- Modelled from the spec: `BaseComponent._writeClickableObjectsCode` is not
under src/; the spec treats it as an external "clickable objects" sub-code
generator invoked when `clickable` is non-empty. One marker line stands for
its emission. -/
def writeClickableObjectsCode (cfg : ButtonboxConfig) (b : CodeBuffer) : CodeBuffer :=
  writeIndented b ("# check if " ++ cfg.name ++ " clicked a clickable object\n")

/-- Modelled from the spec: the parent generic end-of-routine emission
`BaseComponent.writeRoutineEndCode` is not under src/; per the source comment
("get parent to write code too (e.g. store onset/offset times)") one marker
line stands for its emission. -/
def baseWriteRoutineEndCode (cfg : ButtonboxConfig) (b : CodeBuffer) : CodeBuffer :=
  writeIndented b ("# store onset and offset times for " ++ cfg.name ++ "\n")

/-- The five position and button `addData` lines of the `"final"` branch
(source lines 294-300), with the optional correctness line (lines 301-304). -/
def finalAddDataCode (cfg : ButtonboxConfig) (loopName : String) : String :=
  let code :=
    loopName ++ ".addData(\x27" ++ cfg.name ++ ".x\x27, x)\n" ++
    loopName ++ ".addData(\x27" ++ cfg.name ++ ".y\x27, y)\n" ++
    loopName ++ ".addData(\x27" ++ cfg.name ++ ".leftButton\x27, buttons[0])\n" ++
    loopName ++ ".addData(\x27" ++ cfg.name ++ ".midButton\x27, buttons[1])\n" ++
    loopName ++ ".addData(\x27" ++ cfg.name ++ ".rightButton\x27, buttons[2])\n"
  if cfg.storeCorrect then
    code ++ loopName ++ ".addData(\x27" ++ cfg.name ++ ".corr\x27, " ++ cfg.name ++ ".corr)\n"
  else code

/-- One `clicked_<param>` storage block of the `"final"` branch
(source lines 310-319). -/
def clickedParamCode (cfg : ButtonboxConfig) (loopName p : String) : String :=
  "if len(" ++ cfg.name ++ ".clicked_" ++ p ++ "):\n" ++
  "    " ++ loopName ++ ".addData(\x27" ++ cfg.name ++ ".clicked_" ++ p ++ "\x27, " ++
  cfg.name ++ ".clicked_" ++ p ++ "[0])\n"

/-- One per-property `addData` line of the non-final storing branch
(source lines 332-343). The source if-statement there has byte-identical
emissions in both arms; the branch condition is mirrored nonetheless. -/
def propAddDataLine (cfg : ButtonboxConfig) (loopName property : String) : String :=
  loopName ++ ".addData(\x27" ++ cfg.name ++ "." ++ property ++ "\x27, " ++
  cfg.name ++ "." ++ property ++ ")\n"

/-- `ButtonboxComponent.writeRoutineEndCode` (source lines 256-350), translated
branch for branch. The early return tests the literal `"nothing"` (source line
261), not `"never"`; the value `"never"` falls through, consults the enclosing
loop, emits the loop comment, skips both storing branches, and still reaches
the parent emission and the possible `nextEntry` line. -/
def writeRoutineEndCode (cfg : ButtonboxConfig) (ctx : ExpCtx) (b : CodeBuffer) :
    CodeBuffer :=
  let store := cfg.saveMouseState
  if store = "nothing" then b
  else
    let forceEnd := cfg.forceEndRoutineOnPress
    let currLoop :=
      match ctx.loopList.getLast? with
      | some l => l
      | none => ctx.expHandler
    let b := writeIndentedLines b
      (if currLoop.type = "StairHandler" then
        "# NB PsychoPy doesn\x27t handle a \x27correct answer\x27 for mouse events so doesn\x27t know how to handle mouse with StairHandler\n"
      else
        "# store data for " ++ currLoop.name ++ " (" ++ currLoop.type ++ ")\n")
    let b :=
      if store = "final" then
        let b := writeIndentedLines b
          ("x, y = " ++ cfg.name ++ ".getPos()\n" ++
           "buttons = " ++ cfg.name ++ ".getPressed()\n")
        let b :=
          if ¬cfg.clickable.isEmpty then
            let b := writeIndented b "if sum(buttons):\n"
            let b := setIndentLevel 1 b
            let b := writeClickableObjectsCode cfg b
            setIndentLevel (-1) b
          else b
        if currLoop.type ≠ "StairHandler" then
          let b := writeIndentedLines b (finalAddDataCode cfg currLoop.name)
          if ¬cfg.clickable.isEmpty then
            ctx.clickableParamsList.foldl
              (fun b p => writeIndentedLines b (clickedParamCode cfg currLoop.name p)) b
          else b
        else b
      else if store ≠ "never" then
        let mouseDataProps :=
          ["x", "y", "leftButton", "midButton", "rightButton", "time"] ++
          (if cfg.storeCorrect then ["corr"] else []) ++
          (if ¬cfg.clickable.isEmpty then
            ctx.clickableParamsList.map (fun p => "clicked_" ++ p)
          else [])
        mouseDataProps.foldl
          (fun b property =>
            if store = "every frame" ∨ forceEnd = "never" then
              writeIndented b (propAddDataLine cfg currLoop.name property)
            else
              writeIndented b (propAddDataLine cfg currLoop.name property)) b
      else b
    let b := baseWriteRoutineEndCode cfg b
    if currLoop.name = ctx.expHandlerName then
      writeIndented b (ctx.expHandlerName ++ ".nextEntry()\n")
    else b

/-- The four generation phases of the spec. -/
inductive GenPhase where
  | init
  | routineStart
  | frameUpdate
  | routineEnd
deriving DecidableEq, Repr

/-- Run one generation phase against a buffer context. -/
def runPhase : GenPhase → ButtonboxConfig → ExpCtx → CodeBuffer → CodeBuffer
  | .init, cfg, _, b => writeInitCode cfg b
  | .routineStart, cfg, _, b => writeRoutineStartCode cfg b
  | .frameUpdate, cfg, _, b => writeFrameCode cfg b
  | .routineEnd, cfg, ctx, b => writeRoutineEndCode cfg ctx b

/-- Allowed values of `forceEndRoutineOnPress` (source line 59). -/
def forceEndAllowedVals : List String :=
  ["never", "any click", "valid click", "correct click"]

/-- Allowed values of `timeRelativeTo` (source line 76). -/
def timeRelativeToAllowedVals : List String :=
  ["buttonbox onset", "experiment", "routine"]

/-- Domain of the save-state parameter consumed by the generation phases. -/
def saveMouseStateVals : List String :=
  ["never", "final", "every frame", "on click", "on valid click"]

/-- A parameter with its current value and its declared allowed-values set. -/
structure Param where
  val : String
  allowedVals : List String
deriving DecidableEq, Repr

/-- Modelled from the spec: the `Param` class
(`psychopy.experiment.components.Param`) is not under src/. Per the spec
("value must belong to allowed-values set when one is declared";
"Configuration validation errors (parameter value not in allowed set) must be
raised at configuration-assignment time"), assigning a value outside a
declared non-empty allowed set fails fast with a configuration error. -/
def assignParamVal (p : Param) (v : String) : Except String Param :=
  if p.allowedVals ≠ [] ∧ v ∉ p.allowedVals then
    Except.error ("value " ++ v ++ " is not among the allowed values")
  else
    Except.ok { p with val := v }

/-- The `forceEndRoutineOnPress` parameter as registered by `__init__`
(source lines 57-62). -/
def forceEndRoutineOnPressParam : Param :=
  { val := "any click", allowedVals := forceEndAllowedVals }

/-- The `timeRelativeTo` parameter as registered by `__init__`
(source lines 74-79). -/
def timeRelativeToParam : Param :=
  { val := "buttonbox onset", allowedVals := timeRelativeToAllowedVals }

/-- Assemble a validated configuration: both enumerated parameters go through
allowed-set validation before any generation phase can observe them. -/
def buildValidatedConfig (forceEnd timeRel save : String) (newClicksOnly : Bool)
    (clickable : List String) (storeCorrect hasStart hasStop : Bool)
    (name : String) : Except String ButtonboxConfig :=
  match assignParamVal forceEndRoutineOnPressParam forceEnd with
  | .error e => .error e
  | .ok pF =>
    match assignParamVal timeRelativeToParam timeRel with
    | .error e => .error e
    | .ok pT =>
      .ok { name, forceEndRoutineOnPress := pF.val, saveMouseState := save,
            timeRelativeTo := pT.val, newClicksOnly, clickable, storeCorrect,
            hasStartTest := hasStart, hasStopTest := hasStop }

/-- A Python argument value as far as the constructor normalisation of
`forceEndRoutineOnPress` distinguishes: the two booleans (compared with
`is True` and `is False`), strings, and anything else. -/
inductive PyVal where
  | pyBool (b : Bool)
  | pyStr (s : String)
  | pyOther (tag : Nat)
deriving DecidableEq, Repr

/-- Whether a `PyVal` is a Python boolean. -/
def PyVal.isPyBool : PyVal → Bool
  | .pyBool _ => true
  | _ => false

/-- The constructor normalisation of the `forceEndRoutineOnPress` argument
(source lines 53-56): `True` becomes `"any click"`, `False` becomes
`"never"`, everything else is left unchanged. -/
def normalizeForceEndArg : PyVal → PyVal
  | .pyBool true => .pyStr "any click"
  | .pyBool false => .pyStr "never"
  | v => v

/-- Modelled from the spec: `BaseComponent.__init__` is not under src/; it
registers the parameters the subclass passes to it in the `super().__init__`
call (source lines 35-39): the component name and the start and stop timing
parameters. -/
def baseComponentParamKeys : List String :=
  ["name", "startType", "startVal", "stopType", "stopVal", "startEstim",
   "durationEstim"]

/-- All parameter keys present in `self.params` after
`ButtonboxComponent.__init__`: the base keys plus the four registered at
source lines 57-87. -/
def buttonboxInitParamKeys : List String :=
  baseComponentParamKeys ++
  ["forceEndRoutineOnPress", "lights", "timeRelativeTo", "clickable"]

/-- The parameter keys `writeFrameCode` looks up in `self.params`
(source lines 115, 118, 122, 124, 133, 141, 156, 165, 171, 177 and onwards),
in order of first lookup. -/
def writeFrameCodeParamLookups : List String :=
  ["forceEndRoutineOnPress", "timeRelativeTo", "name", "newClicksOnly",
   "saveMouseState", "clickable"]

/-- The texts of the write events of a buffer, in emission order. -/
def entryTexts (b : CodeBuffer) : List String := b.entries.map Prod.snd

/-- Number of write events whose text is exactly `t`. -/
def countText (b : CodeBuffer) (t : String) : Nat :=
  (b.entries.filter (fun e => decide (e.2 = t))).length

/-- Whether the character list `p` is a prefix of `l`. -/
def listPrefixOf : List Char → List Char → Bool
  | [], _ => true
  | _ :: _, [] => false
  | p :: ps, c :: cs => decide (p = c) && listPrefixOf ps cs

/-- Helper for `strContains`: does `pat` occur in the given character list? -/
def strContainsAux (pat : List Char) : List Char → Bool
  | [] => listPrefixOf pat []
  | c :: rest => listPrefixOf pat (c :: rest) || strContainsAux pat rest

/-- Whether `pat` occurs as a substring of `s`. -/
def strContains (s pat : String) : Bool := strContainsAux pat.data s.data

/-- Number of write events whose text contains `pat` as a substring. -/
def countTextContaining (b : CodeBuffer) (pat : String) : Nat :=
  (b.entries.filter (fun e => strContains e.2 pat)).length

/-- The routine-termination statement emitted by `writeFrameCode`. -/
def termLineText : String := "continueRoutine = False  # end routine on response"

/-- The button-state-changed guard line emitted by `_buttonPressCode`. -/
def stateChangedGuardText : String :=
  "if buttons != prevButtonState:  # button state changed?"

/-- The new-click guard line emitted by `_buttonPressCode`. -/
def newClickGuardText : String :=
  "if buttons > 0:  # state changed to a new click"

/-- Helper for `coveredByGuard`: walk the events keeping the indentation level
of the innermost still-open guard line (if any); a guard block is considered
closed as soon as an event is written at or below the level of its guard
line. Requires every event whose text is `term` to occur while a guard block
is open. -/
def coveredByGuardAux (guard term : String) :
    Option Int → List (Int × String) → Bool
  | _, [] => true
  | g, (lvl, t) :: rest =>
    let gActive : Option Int :=
      match g with
      | some gl => if lvl ≤ gl then none else some gl
      | none => none
    let ok := if t = term then gActive.isSome else true
    let gNext : Option Int := if t = guard then some lvl else gActive
    ok && coveredByGuardAux guard term gNext rest

/-- Every occurrence of `term` among the events lies inside a block opened by
a `guard` line: after the guard line, strictly more indented, with no
intervening event back at or below the guard level. -/
def coveredByGuard (guard term : String) (es : List (Int × String)) : Bool :=
  coveredByGuardAux guard term none es

/-- Index of the first event whose text is `t` (length of the list when
absent). -/
def firstIdxOf (l : List String) (t : String) : Nat :=
  l.findIdx (fun s => decide (s = t))

/-- A concrete experiment context: no enclosing loop, generic experiment
handler. -/
def ctxNoLoop : ExpCtx :=
  { loopList := [], expHandler := { type := "ExperimentHandler", name := "thisExp" },
    expHandlerName := "thisExp", clickableParamsList := ["name"] }

/-- A concrete experiment context with one enclosing trials loop. -/
def ctxTrialsLoop : ExpCtx :=
  { loopList := [{ type := "TrialHandler", name := "trials" }],
    expHandler := { type := "ExperimentHandler", name := "thisExp" },
    expHandlerName := "thisExp", clickableParamsList := ["name"] }

/-- A concrete configuration with both axes at `"never"`. -/
def cfgNeverNever : ButtonboxConfig :=
  { name := "buttonbox", forceEndRoutineOnPress := "never",
    saveMouseState := "never", timeRelativeTo := "buttonbox onset",
    newClicksOnly := false, clickable := [], storeCorrect := false,
    hasStartTest := true, hasStopTest := true }

/-- The concrete scenario configuration of the spec: end on correct click,
save on click, two clickable buttons, correctness stored. -/
def cfgCorrectOnClick : ButtonboxConfig :=
  { name := "buttonbox", forceEndRoutineOnPress := "correct click",
    saveMouseState := "on click", timeRelativeTo := "buttonbox onset",
    newClicksOnly := false, clickable := ["red", "blue"], storeCorrect := true,
    hasStartTest := true, hasStopTest := true }

/-- A concrete configuration ending the routine on any click, saving on
click. -/
def cfgAnyOnClick : ButtonboxConfig :=
  { name := "buttonbox", forceEndRoutineOnPress := "any click",
    saveMouseState := "on click", timeRelativeTo := "buttonbox onset",
    newClicksOnly := false, clickable := ["red", "blue"], storeCorrect := true,
    hasStartTest := true, hasStopTest := true }

/-- A concrete configuration whose save-state value is `"never"`. -/
def cfgSaveNever : ButtonboxConfig :=
  { name := "buttonbox", forceEndRoutineOnPress := "any click",
    saveMouseState := "never", timeRelativeTo := "buttonbox onset",
    newClicksOnly := false, clickable := [], storeCorrect := false,
    hasStartTest := true, hasStopTest := true }

/-- A concrete configuration whose save-state value is `"nothing"`. -/
def cfgSaveNothing : ButtonboxConfig :=
  { name := "buttonbox", forceEndRoutineOnPress := "any click",
    saveMouseState := "nothing", timeRelativeTo := "buttonbox onset",
    newClicksOnly := false, clickable := [], storeCorrect := false,
    hasStartTest := true, hasStopTest := true }

/-- A Python object as far as `getFromNames` distinguishes: strings and
opaque non-string handles. -/
inductive PyObj where
  | str (s : String)
  | handle (n : Nat)
deriving DecidableEq, Repr

/-- A namespace: a mapping from variable names to objects. -/
abbrev NsMap := List (String × PyObj)

/-- Python `namespace.get(nm, nm)` (source line 215): the object bound to a
string name, the name itself when unbound; a non-string key is absent from a
string-keyed namespace and falls back to the default, itself. -/
def nsGet (ns : NsMap) : PyObj → PyObj
  | .str s =>
    match ns.find? (fun p => decide (p.1 = s)) with
    | some p => p.2
    | none => .str s
  | .handle n => .handle n

/-- Strip one pair of matching quotes from a field (source lines 193-198). -/
def stripNameQuotes (t : String) : String :=
  if (pyStartsWithChar t dquote ∧ pyEndsWithChar t dquote) ∨
     (pyStartsWithChar t squote ∧ pyEndsWithChar t squote) then
    stripFirstLast t
  else t

/-- The listlike-string parse of `getFromNames` (source lines 181-201): strip
one pair of matching brackets or parentheses, split at commas, strip spaces
and then quotes from each field. -/
def parseNameList (s : String) : List String :=
  let s :=
    if (pyStartsWithChar s '[' ∧ pyEndsWithChar s ']') ∨
       (pyStartsWithChar s '(' ∧ pyEndsWithChar s ')') then
      stripFirstLast s
    else s
  (splitOnChar ',' s).map (fun t => stripNameQuotes (pyStrip t))

/-- The `names` argument of `getFromNames`: a string, a list or tuple of
objects, or a non-iterable object. -/
inductive NamesArg where
  | ofStr (s : String)
  | ofList (l : List PyObj)
  | atom (o : PyObj)
deriving DecidableEq, Repr

/-- `getFromNames(names, namespace)` (source lines 169-219): a comma-bearing
string is parsed into a list of names; a plain string or a non-iterable is
wrapped into a one-element list; then each name is resolved through
`namespace.get(nm, nm)`. -/
def getFromNames (names : NamesArg) (ns : NsMap) : List PyObj :=
  match names with
  | .ofStr s =>
    if pyContainsChar s ',' then
      (parseNameList s).map (fun nm => nsGet ns (.str nm))
    else [nsGet ns (.str s)]
  | .ofList l => l.map (nsGet ns)
  | .atom o => [nsGet ns o]


/-- C1 (counterexample): at the valid configuration with
`forceEndRoutineOnPress = "never"` and `saveMouseState = "never"`, generating
the FrameUpdate phase does not leave the indentation level unchanged: the
increment entering the STARTED guard is never matched by a decrement. -/
theorem writeFrameCode_net_indent_counterexample :
    (writeFrameCode cfgNeverNever emptyBuffer).indentLevel ≠
      emptyBuffer.indentLevel := by decide

set_option maxHeartbeats 1000000 in
/-- C1 (amended): for every valid configuration triple except the pair
`forceEndRoutineOnPress = "never"` with `saveMouseState = "never"`, generating
the FrameUpdate phase leaves the indentation level of the buffer unchanged
relative to its level at phase entry (net indentation delta zero), for any
component name, any clickable list, and whether or not the base start and
stop tests open a guard. -/
theorem writeFrameCode_net_indent_zero (name force save timeRel : String)
    (clickable : List String) (nco sc hs1 hs2 : Bool) (b : CodeBuffer)
    (hf : force ∈ forceEndAllowedVals)
    (hs : save ∈ saveMouseStateVals)
    (hne : ¬(force = "never" ∧ save = "never")) :
    (writeFrameCode
      { name := name, forceEndRoutineOnPress := force, saveMouseState := save,
        timeRelativeTo := timeRel, newClicksOnly := nco, clickable := clickable,
        storeCorrect := sc, hasStartTest := hs1, hasStopTest := hs2 } b).indentLevel
      = b.indentLevel := by
  fin_cases hf <;> fin_cases hs
  all_goals try (exact absurd (And.intro rfl rfl) hne)
  all_goals
    cases hs1 <;> cases hs2 <;> cases clickable <;>
      simp [writeFrameCode, buttonPressCode, writeStartTestCode,
        writeStopTestCode, writeIndented, writeIndentedLines, writeLines,
        setIndentLevel, mouseCode] <;> omega

/-- C1 (witness): the net-indentation theorem applied at a concrete valid
configuration. -/
theorem writeFrameCode_net_indent_zero_witness :
    (writeFrameCode cfgAnyOnClick emptyBuffer).indentLevel =
      emptyBuffer.indentLevel :=
  writeFrameCode_net_indent_zero "buttonbox" "any click" "on click"
    "buttonbox onset" ["red", "blue"] false true true true emptyBuffer
    (by decide) (by decide) (by decide)

/-- C2 (counterexample): with the save-state value `"never"`, the RoutineEnd
phase does emit lines, and its output depends on the enclosing loop (the
emitted comment names the loop), so it neither emits zero lines nor returns
before consulting the loop. -/
theorem routineEnd_never_counterexample :
    (writeRoutineEndCode cfgSaveNever ctxNoLoop emptyBuffer).entries ≠ [] ∧
    writeRoutineEndCode cfgSaveNever ctxNoLoop emptyBuffer ≠
      writeRoutineEndCode cfgSaveNever ctxTrialsLoop emptyBuffer := by decide

/-- C2 (amended): when the save-state parameter is `"nothing"` (the literal
the source tests at its early return), the RoutineEnd phase emits exactly
zero lines and returns the buffer untouched, for every experiment context —
in particular without consulting the enclosing loop, without the comment
line, without the parent delegation and without a `nextEntry` call. -/
theorem routineEnd_nothing_emits_nothing (cfg : ButtonboxConfig) (ctx : ExpCtx)
    (b : CodeBuffer) (h : cfg.saveMouseState = "nothing") :
    writeRoutineEndCode cfg ctx b = b := by
  simp [writeRoutineEndCode, h]

/-- C2 (witness): the amended theorem applied at a concrete configuration. -/
theorem routineEnd_nothing_emits_nothing_witness :
    writeRoutineEndCode cfgSaveNothing ctxNoLoop emptyBuffer = emptyBuffer :=
  routineEnd_nothing_emits_nothing cfgSaveNothing ctxNoLoop emptyBuffer rfl

/-- C3 (code bug): at the spec scenario configuration (end routine on correct
click, save on click, clickable `["red", "blue"]`, correctness stored) the
FrameUpdate fragment does contain the button-state-changed guard, the
new-click guard and the data-append lines, but no correctness-check guard and
no routine-termination statement at all: the source builds the guard string
at lines 245-249 and never writes it to the buffer. -/
theorem correctClick_termination_not_emitted :
    countText (writeFrameCode cfgCorrectOnClick emptyBuffer)
      stateChangedGuardText = 1 ∧
    countText (writeFrameCode cfgCorrectOnClick emptyBuffer)
      newClickGuardText = 1 ∧
    countText (writeFrameCode cfgCorrectOnClick emptyBuffer)
      "x, y = buttonbox.getPos()" = 1 ∧
    countTextContaining (writeFrameCode cfgCorrectOnClick emptyBuffer)
      "continueRoutine" = 0 ∧
    countTextContaining (writeFrameCode cfgCorrectOnClick emptyBuffer)
      ".corr" = 0 := by decide

/-- The FrameUpdate output for `forceEndRoutineOnPress = "any click"` from a
fresh buffer, with the component at its default name. -/
def frameOutAnyClick (save timeRel : String) (clickable : List String) : CodeBuffer :=
  writeFrameCode
    { name := "buttonbox", forceEndRoutineOnPress := "any click",
      saveMouseState := save, timeRelativeTo := timeRel, newClicksOnly := false,
      clickable := clickable, storeCorrect := true, hasStartTest := true,
      hasStopTest := true } emptyBuffer

set_option maxHeartbeats 1600000 in
/-- C4: for every valid configuration with
`forceEndRoutineOnPress = "any click"` (any save-state value, any clickable
list, any allowed `timeRelativeTo`), the emitted FrameUpdate fragment contains
exactly one routine-termination statement, it is the unconditional bare
statement, and it occurs only inside a button-state-changed guard block;
moreover with `saveMouseState = "on click"` exactly one button-state-changed
block is emitted, containing the data-append lines before the termination
line. -/
theorem anyClick_single_guarded_termination (save timeRel : String)
    (clickable : List String)
    (hs : save ∈ saveMouseStateVals)
    (ht : timeRel ∈ timeRelativeToAllowedVals) :
    countText (frameOutAnyClick save timeRel clickable) termLineText = 1 ∧
    countTextContaining (frameOutAnyClick save timeRel clickable)
      "continueRoutine" = 1 ∧
    coveredByGuard stateChangedGuardText termLineText
      (frameOutAnyClick save timeRel clickable).entries = true ∧
    (save = "on click" →
      countText (frameOutAnyClick save timeRel clickable)
        stateChangedGuardText = 1 ∧
      firstIdxOf (entryTexts (frameOutAnyClick save timeRel clickable))
          "x, y = buttonbox.getPos()" <
        firstIdxOf (entryTexts (frameOutAnyClick save timeRel clickable))
          termLineText ∧
      firstIdxOf (entryTexts (frameOutAnyClick save timeRel clickable))
          termLineText <
        (entryTexts (frameOutAnyClick save timeRel clickable)).length) := by
  fin_cases hs <;> fin_cases ht <;> cases clickable <;>
    simp [frameOutAnyClick, writeFrameCode, buttonPressCode, writeStartTestCode,
      writeStopTestCode, writeIndented, writeIndentedLines, writeLines,
      setIndentLevel, mouseCode, clockStr] <;> decide

/-- C4 (witness): the theorem applied at the concrete triple
(`"any click"`, `"on click"`, `["red", "blue"]`). -/
theorem anyClick_single_guarded_termination_witness :
    countText (frameOutAnyClick "on click" "buttonbox onset" ["red", "blue"])
      termLineText = 1 :=
  (anyClick_single_guarded_termination "on click" "buttonbox onset"
    ["red", "blue"] (by decide) (by decide)).1

/-- C5: assigning a value outside the declared allowed-values set of
`forceEndRoutineOnPress` or of `timeRelativeTo` is rejected with a
configuration error at assignment time, and any configuration that reaches
the generation phases through validated assembly carries parameter values
inside their declared sets. -/
theorem param_validation_fail_fast :
    (∀ v, v ∉ forceEndAllowedVals →
      assignParamVal forceEndRoutineOnPressParam v =
        Except.error ("value " ++ v ++ " is not among the allowed values")) ∧
    (∀ v, v ∉ timeRelativeToAllowedVals →
      assignParamVal timeRelativeToParam v =
        Except.error ("value " ++ v ++ " is not among the allowed values")) ∧
    (∀ forceEnd timeRel save nco clickable sc h1 h2 name cfg,
      buildValidatedConfig forceEnd timeRel save nco clickable sc h1 h2 name =
        Except.ok cfg →
      cfg.forceEndRoutineOnPress ∈ forceEndAllowedVals ∧
      cfg.timeRelativeTo ∈ timeRelativeToAllowedVals) := by
  refine ⟨fun v hv => ?_, fun v hv => ?_, ?_⟩
  · simp [assignParamVal, forceEndRoutineOnPressParam, forceEndAllowedVals] at hv ⊢
    simp [hv]
  · simp [assignParamVal, timeRelativeToParam, timeRelativeToAllowedVals] at hv ⊢
    simp [hv]
  · intro forceEnd timeRel save nco clickable sc h1 h2 name cfg h
    by_cases hF : forceEnd ∈ forceEndAllowedVals
    · by_cases hT : timeRel ∈ timeRelativeToAllowedVals
      · simp +decide [buildValidatedConfig, assignParamVal,
          forceEndRoutineOnPressParam, timeRelativeToParam, hF, hT] at h
        exact h ▸ ⟨hF, hT⟩
      · simp +decide [buildValidatedConfig, assignParamVal,
          forceEndRoutineOnPressParam, timeRelativeToParam, hF, hT] at h
    · simp +decide [buildValidatedConfig, assignParamVal,
        forceEndRoutineOnPressParam, hF] at h

/-- C5 (witness): the validation theorem applied at the concrete out-of-domain
value `"sometimes"`. -/
theorem param_validation_fail_fast_witness :
    assignParamVal forceEndRoutineOnPressParam "sometimes" =
      Except.error ("value " ++ "sometimes" ++ " is not among the allowed values") :=
  param_validation_fail_fast.1 "sometimes" (by decide)

/-- C6: code generation is deterministic — running any of the four generation
phases on a fixed configuration and experiment context from two buffer
contexts in the same state produces identical output; each phase is embedded
as a pure function of the configuration, the context and the buffer, and the
source consults no other mutable state (the clock-name string is recomputed
from the parameters on every call for valid configurations). -/
theorem generation_deterministic (p : GenPhase) (cfg : ButtonboxConfig)
    (ctx : ExpCtx) (b1 b2 : CodeBuffer) (h : b1 = b2) :
    runPhase p cfg ctx b1 = runPhase p cfg ctx b2 := by
  rw [h]

/-- C6 (witness): the determinism theorem applied at the FrameUpdate phase on
a concrete configuration and a fresh buffer. -/
theorem generation_deterministic_witness :
    runPhase GenPhase.frameUpdate cfgAnyOnClick ctxNoLoop emptyBuffer =
      runPhase GenPhase.frameUpdate cfgAnyOnClick ctxNoLoop emptyBuffer :=
  generation_deterministic GenPhase.frameUpdate cfgAnyOnClick ctxNoLoop
    emptyBuffer emptyBuffer rfl

/-- The RoutineStart configuration with the component at its default name and
the given `timeRelativeTo` value. -/
def cfgRoutineStart (timeRel : String) : ButtonboxConfig :=
  { name := "buttonbox", forceEndRoutineOnPress := "any click",
    saveMouseState := "on click", timeRelativeTo := timeRel,
    newClicksOnly := false, clickable := [], storeCorrect := false,
    hasStartTest := true, hasStopTest := true }

/-- C7: the RoutineStart phase always emits the device-start call and the
results-accumulator initialiser (the latter with the source literal
`"(name)sResp = []"`), and emits the clock-reset line exactly when the
lower-cased `timeRelativeTo` value equals `"routine"` — so for the other
allowed values, `"buttonbox onset"` and `"experiment"`, no clock reset is
emitted at routine start. -/
theorem routineStart_emission (timeRel : String) :
    "buttonbox.start()" ∈
      entryTexts (writeRoutineStartCode (cfgRoutineStart timeRel) emptyBuffer) ∧
    "(name)sResp = []" ∈
      entryTexts (writeRoutineStartCode (cfgRoutineStart timeRel) emptyBuffer) ∧
    ("buttonbox.buttonboxClock.reset()" ∈
        entryTexts (writeRoutineStartCode (cfgRoutineStart timeRel) emptyBuffer) ↔
      pyLower timeRel = "routine") := by
  by_cases h : pyLower timeRel = "routine" <;>
    simp [writeRoutineStartCode, cfgRoutineStart, h, entryTexts, writeIndentedLines,
      writeLines, splitLines, splitOnChar, splitOnCharAux, emptyBuffer]

/-- C8 (code bug): not every parameter key `writeFrameCode` looks up is
registered by `__init__` — in particular `"saveMouseState"` and
`"newClicksOnly"` are looked up during FrameUpdate generation but never
stored (the `save` constructor argument is accepted and dropped), so the
missing-key lookup is reachable. -/
theorem frame_lookup_keys_missing :
    ¬(∀ k ∈ writeFrameCodeParamLookups, k ∈ buttonboxInitParamKeys) ∧
    "saveMouseState" ∉ buttonboxInitParamKeys ∧
    "newClicksOnly" ∉ buttonboxInitParamKeys ∧
    "forceEndRoutineOnPress" ∈ buttonboxInitParamKeys ∧
    "timeRelativeTo" ∈ buttonboxInitParamKeys ∧
    "clickable" ∈ buttonboxInitParamKeys ∧
    "name" ∈ buttonboxInitParamKeys := by decide

/-- C9: the constructor normalises a boolean `forceEndRoutineOnPress`
argument — `True` is stored as `"any click"`, `False` as `"never"` — leaves
every non-boolean argument unchanged, and consequently never stores a
boolean. -/
theorem forceEnd_bool_normalization :
    normalizeForceEndArg (PyVal.pyBool true) = PyVal.pyStr "any click" ∧
    normalizeForceEndArg (PyVal.pyBool false) = PyVal.pyStr "never" ∧
    (∀ v, v.isPyBool = false → normalizeForceEndArg v = v) ∧
    (∀ v, (normalizeForceEndArg v).isPyBool = false) := by
  refine ⟨rfl, rfl, fun v hv => ?_, fun v => ?_⟩
  · cases v with
    | pyBool b => simp [PyVal.isPyBool] at hv
    | pyStr s => rfl
    | pyOther t => rfl
  · cases v with
    | pyBool b => cases b <;> rfl
    | pyStr s => rfl
    | pyOther t => rfl

/-- C9 (witness): the normalisation theorem applied at a concrete non-boolean
argument. -/
theorem forceEnd_bool_normalization_witness :
    normalizeForceEndArg (PyVal.pyStr "valid click") = PyVal.pyStr "valid click" :=
  forceEnd_bool_normalization.2.2.1 (PyVal.pyStr "valid click") rfl

/-- C10: `getFromNames` always returns one element per resolved name — a
single comma-free string or a non-iterable input yields a one-element list, a
list input yields one element per member, and a comma-separated string
(optionally bracketed, fields optionally quoted) is split into trimmed,
unquoted names, each resolved individually — and a name absent from the
namespace resolves to the name string itself rather than an error. -/
theorem getFromNames_spec :
    (∀ (ns : NsMap) (s : String), pyContainsChar s ',' = false →
      getFromNames (NamesArg.ofStr s) ns = [nsGet ns (PyObj.str s)]) ∧
    (∀ (ns : NsMap) (o : PyObj), getFromNames (NamesArg.atom o) ns = [nsGet ns o] ∧
      (getFromNames (NamesArg.atom o) ns).length = 1) ∧
    (∀ (ns : NsMap) (l : List PyObj),
      (getFromNames (NamesArg.ofList l) ns).length = l.length) ∧
    (∀ (ns : NsMap) (s : String), pyContainsChar s ',' = true →
      getFromNames (NamesArg.ofStr s) ns =
        (parseNameList s).map (fun nm => nsGet ns (PyObj.str nm)) ∧
      (getFromNames (NamesArg.ofStr s) ns).length = (parseNameList s).length) ∧
    (∀ ns : NsMap, getFromNames (NamesArg.ofStr "[\x27red\x27, blue]") ns =
      [nsGet ns (PyObj.str "red"), nsGet ns (PyObj.str "blue")]) ∧
    (∀ (ns : NsMap) (nm : String), ns.find? (fun p => decide (p.1 = nm)) = none →
      nsGet ns (PyObj.str nm) = PyObj.str nm) := by
  refine ⟨fun ns s h => ?_, fun ns o => ⟨rfl, rfl⟩, fun ns l => ?_,
    fun ns s h => ?_, fun ns => ?_, fun ns nm h => ?_⟩
  · simp [getFromNames, h]
  · simp [getFromNames]
  · simp [getFromNames, h]
  · rfl
  · simp [nsGet, h]

/-- C10 (witness): the resolution theorem applied at a concrete comma-free
name over the empty namespace. -/
theorem getFromNames_spec_witness :
    getFromNames (NamesArg.ofStr "abc") [] = [nsGet [] (PyObj.str "abc")] :=
  getFromNames_spec.1 ([] : NsMap) "abc" (by decide)

/-- C7 (witness): the RoutineStart theorem applied at the concrete value
`"routine"`. -/
theorem routineStart_emission_witness :
    "buttonbox.start()" ∈
      entryTexts (writeRoutineStartCode (cfgRoutineStart "routine") emptyBuffer) :=
  (routineStart_emission "routine").1
